import Mathlib

/-!
# Verification of the Deviation Finder calculator (`main.py`)

Shallow embedding of `calculate_deviation` from `main.py`.

The source computes, from a coordinate string, an initial heading, a distance
(miles), a heading deviation (degrees) and a rounding precision:
* an ellipsoidal geodesic deviation (two `Geodesic.WGS84.Direct` calls and one
  `Inverse` call, converting miles to meters with the constant `1609.34`),
* a flat-plane trigonometric deviation `abs(distance * tan(radians(hd)))`,
* the absolute difference of the two, all three rounded with Python `round`,
* and Google-Maps links for the start point and the two endpoints.

Embedding decisions:
* Machine floats are idealised as real numbers; Python's `round(x, d)`
  (round-half-to-even to `d` decimal digits) is modelled exactly on ℝ by
  `pyRound`.
* The geodesic solver (`geographiclib`, an external dependency, not part of
  this repository) is abstracted as a `GeodesicModel` supplying the `Direct`
  endpoint fields `lat2`/`lon2` and the `Inverse` output field `s12` that the
  source reads.  Claims that rest on identities of the solver state those
  identities as hypotheses.
* `float(str)` parsing is modelled by `pyFloatNum`, implementing the ASCII
  grammar of Python's `float`: optional surrounding whitespace, optional
  sign, then `inf`/`infinity`/`nan` (case-insensitive) or decimal digits
  with optional fractional part and optional `e`/`E` exponent, with single
  underscores permitted between digits.  (Python additionally maps non-ASCII
  decimal digits and Unicode whitespace; those non-ASCII forms are outside
  the `Char.isDigit`/`Char.isWhitespace` idealisation used here.)  The only
  failure path of the source function is this parse (`ValueError` from
  unpacking/`float`); the embedding returns `Option`, `none` exactly on
  that path.  `math.tan` raises on no finite input.  The IEEE non-finite
  parses `inf`/`nan` are carried as formal tokens; their real-number
  denotation is a junk value (see `floatValR`) and no theorem evaluates the
  numeric pipeline on them.
* The three links are f-strings of coordinate pairs; string formatting of
  reals is not modelled, so the result carries the three coordinate pairs
  the links display.
-/

namespace Deviation

/-- `METERS_TO_MILES` from `main.py` line 5 (the number of meters per mile;
the source multiplies miles by it to get meters and divides to get miles). -/
def METERS_TO_MILES : ℝ := 1609.34

/-- `math.radians(x) = x * pi / 180`. -/
noncomputable def radians (x : ℝ) : ℝ := x * Real.pi / 180

/-- Round-half-to-even to the nearest integer, the rounding of Python's
`round` (idealised over ℝ). -/
noncomputable def roundHalfToEven (x : ℝ) : ℤ :=
  if x - (⌊x⌋ : ℝ) < 1 / 2 then ⌊x⌋
  else if (1 : ℝ) / 2 < x - (⌊x⌋ : ℝ) then ⌊x⌋ + 1
  else if ⌊x⌋ % 2 = 0 then ⌊x⌋ else ⌊x⌋ + 1

/-- Python's `round(x, d)`: round to `d` decimal digits, ties to even. -/
noncomputable def pyRound (x : ℝ) (d : ℤ) : ℝ :=
  ((roundHalfToEven (x * 10 ^ d) : ℤ) : ℝ) / 10 ^ d

/-- Split a character list at every occurrence of `sep`
(the semantics of Python's `str.split(sep)` for a one-character separator). -/
def splitOnChar (sep : Char) : List Char → List (List Char)
  | [] => [[]]
  | c :: r =>
    let rest := splitOnChar sep r
    if c = sep then [] :: rest
    else
      match rest with
      | [] => [[c]]
      | g :: gs => (c :: g) :: gs

/-- Strip leading and trailing whitespace (Python `float` ignores it). -/
def trimChars (l : List Char) : List Char :=
  ((l.dropWhile Char.isWhitespace).reverse.dropWhile Char.isWhitespace).reverse

/-- Value of a digit string, most significant first. -/
def digitsVal (l : List Char) : ℕ :=
  l.foldl (fun a c => 10 * a + (c.toNat - 48)) 0

/-- `true` iff the list is a Python `digitpart`: one or more decimal
digits with single underscores permitted only between digits
(`digit (["_"] digit)*`, PEP 515).  Given that every character is a digit
or an underscore, this is: first and last are digits and no two
underscores are adjacent. -/
def noConsecUnderscore : List Char → Bool
  | [] => true
  | [_] => true
  | a :: b :: r => !(a = '_' && b = '_') && noConsecUnderscore (b :: r)

def digitPartValid (l : List Char) : Bool :=
  match l with
  | [] => false
  | c :: _ =>
    c.isDigit &&
      (match l.getLast? with
        | some d => d.isDigit
        | none => false) &&
      l.all (fun x => x.isDigit || x = '_') &&
      noConsecUnderscore l

/-- The digits of a digitpart with the grouping underscores removed. -/
def digitsOnly (l : List Char) : List Char := l.filter Char.isDigit

def digitPartVal (l : List Char) : ℕ := digitsVal (digitsOnly l)

/-- The mantissa of a Python float literal: `digitpart ["." [digitpart]]`
or `"." digitpart`.  Returns the combined digit value together with the
number of fractional digits. -/
def parseMantissa (l : List Char) : Option (ℕ × ℕ) :=
  match splitOnChar '.' l with
  | [ip] => if digitPartValid ip then some (digitPartVal ip, 0) else none
  | [ip, fp] =>
    if (digitPartValid ip || ip.isEmpty) && (digitPartValid fp || fp.isEmpty) &&
        !(ip.isEmpty && fp.isEmpty) then
      some (digitPartVal ip * 10 ^ (digitsOnly fp).length + digitPartVal fp,
        (digitsOnly fp).length)
    else none
  | _ => none

/-- The exponent of a Python float literal after the `e`: an optionally
signed digitpart. -/
def parseExp (l : List Char) : Option ℤ :=
  let signed : ℤ × List Char :=
    match l with
    | '-' :: r => (-1, r)
    | '+' :: r => (1, r)
    | r => (1, r)
  if digitPartValid signed.2 then some (signed.1 * (digitPartVal signed.2 : ℤ)) else none

/-- The result of a successful Python `float(str)` call: a finite decimal
value `mantissa * 10 ^ exponent`, a signed infinity, or a NaN. -/
inductive PyFloat where
  | finite : ℤ → ℤ → PyFloat
  | infinite : Bool → PyFloat
  | nan : PyFloat
deriving DecidableEq

/-- Python's `float(str)` on a character list (ASCII grammar): optional
surrounding whitespace, optional sign, then — case-insensitively —
`inf`/`infinity`/`nan`, or a decimal mantissa with an optional `e`/`E`
exponent, with single underscores permitted between digits.  `none` models
the `ValueError` raised on anything else.  (Non-ASCII decimal digits and
Unicode whitespace, which Python also maps, are outside this
idealisation; floats whose decimal exponent over- or underflows IEEE range
parse here to their exact decimal value instead of `inf`/`0.0`.) -/
def pyFloatNum (l : List Char) : Option PyFloat :=
  let t := trimChars l
  let signed : Bool × List Char :=
    match t with
    | '-' :: r => (true, r)
    | '+' :: r => (false, r)
    | r => (false, r)
  let sgn : ℤ := if signed.1 then -1 else 1
  let u := signed.2.map Char.toLower
  if u = "inf".toList || u = "infinity".toList then some (.infinite signed.1)
  else if u = "nan".toList then some .nan
  else
    match splitOnChar 'e' u with
    | [mant] =>
      match parseMantissa mant with
      | some (v, f) => some (.finite (sgn * (v : ℤ)) (-(f : ℤ)))
      | none => none
    | [mant, ex] =>
      match parseMantissa mant, parseExp ex with
      | some (v, f), some e => some (.finite (sgn * (v : ℤ)) (e - (f : ℤ)))
      | _, _ => none
    | _ => none

/-- The real number denoted by a parsed float.  The IEEE non-finite values
have no real counterpart: they are given an arbitrary junk denotation here,
and no theorem of this development evaluates the numeric pipeline on a
non-finite parse (the source program propagates them as IEEE `inf`/`nan`
through to its outputs without raising). -/
noncomputable def floatValR : PyFloat → ℝ
  | .finite m e => (m : ℝ) * 10 ^ e
  | .infinite _ => 0
  | .nan => 0

/-- Line 46 of `main.py`:
`starting_lat, starting_lon = map(float, initial_coordinates.split(','))`.
`none` models the `ValueError` escaping when the split does not yield exactly
two fields or a field is not accepted by `float`. -/
def parseCoords (s : String) : Option (PyFloat × PyFloat) :=
  match splitOnChar ',' s.toList with
  | [a, b] =>
    match pyFloatNum a, pyFloatNum b with
    | some la, some lo => some (la, lo)
    | _, _ => none
  | _ => none

/-- The fields of the `geographiclib` `Direct` result dictionary that the
source reads (`'lat2'`, `'lon2'`). -/
structure DirectResult where
  lat2 : ℝ
  lon2 : ℝ

/-- Abstraction of the external geodesic solver `Geodesic.WGS84`:
`Direct lat1 lon1 azi1 s12` is the direct problem (destination point),
`InverseS12 lat1 lon1 lat2 lon2` is the `'s12'` field (geodesic distance in
meters) of the inverse problem. -/
structure GeodesicModel where
  Direct : ℝ → ℝ → ℝ → ℝ → DirectResult
  InverseS12 : ℝ → ℝ → ℝ → ℝ → ℝ

/-- Lines 52-57 of `main.py`: the geodesic deviation in miles, before
rounding — the inverse distance between the endpoint reached with heading
`initial_heading + heading_deviation` and the endpoint reached with
`initial_heading`, both after `distance * METERS_TO_MILES` meters. -/
noncomputable def geoDeviationPre (geo : GeodesicModel)
    (starting_lat starting_lon initial_heading distance heading_deviation : ℝ) : ℝ :=
  let actual_end_point :=
    geo.Direct starting_lat starting_lon (initial_heading + heading_deviation)
      (distance * METERS_TO_MILES)
  let correct_end_point :=
    geo.Direct starting_lat starting_lon initial_heading (distance * METERS_TO_MILES)
  geo.InverseS12 actual_end_point.lat2 actual_end_point.lon2
    correct_end_point.lat2 correct_end_point.lon2 / METERS_TO_MILES

/-- Line 44 and line 60 of `main.py`: the trigonometric deviation before
rounding, `abs(distance * math.tan(math.radians(heading_deviation)))`. -/
noncomputable def trigDeviationPre (distance heading_deviation : ℝ) : ℝ :=
  |distance * Real.tan (radians heading_deviation)|

/-- The scalar and link outputs of `calculate_deviation` (lines 66-79).
The three links are determined by the three coordinate pairs carried here
(start, planned end, actual end); their string rendering is not modelled. -/
structure DeviationResult where
  deviation_distance : ℝ
  trig_deviation_distance : ℝ
  deviation_difference : ℝ
  start_point : ℝ × ℝ
  planned_end : ℝ × ℝ
  actual_end : ℝ × ℝ

/-- Lines 44, 52-79 of `main.py` after a successful coordinate parse. -/
noncomputable def computeDeviation (geo : GeodesicModel)
    (starting_lat starting_lon initial_heading distance heading_deviation : ℝ)
    (decimal_places : ℤ) : DeviationResult :=
  let actual_end_point :=
    geo.Direct starting_lat starting_lon (initial_heading + heading_deviation)
      (distance * METERS_TO_MILES)
  let correct_end_point :=
    geo.Direct starting_lat starting_lon initial_heading (distance * METERS_TO_MILES)
  let deviation_distance :=
    geoDeviationPre geo starting_lat starting_lon initial_heading distance heading_deviation
  let trig_deviation_distance := trigDeviationPre distance heading_deviation
  let deviation_difference := |deviation_distance - trig_deviation_distance|
  { deviation_distance := pyRound deviation_distance decimal_places
    trig_deviation_distance := pyRound trig_deviation_distance decimal_places
    deviation_difference := pyRound deviation_difference decimal_places
    start_point := (starting_lat, starting_lon)
    planned_end := (correct_end_point.lat2, correct_end_point.lon2)
    actual_end := (actual_end_point.lat2, actual_end_point.lon2) }

/-- `calculate_deviation` (lines 41-79 of `main.py`), parametrised by the
external geodesic solver.  `none` is the `ValueError` escaping from the
coordinate parse on line 46, the only raise site of the function. -/
noncomputable def calculate_deviation (geo : GeodesicModel)
    (initial_coordinates : String)
    (initial_heading distance heading_deviation : ℝ) (decimal_places : ℤ) :
    Option DeviationResult :=
  (parseCoords initial_coordinates).map fun p =>
    computeDeviation geo (floatValR p.1) (floatValR p.2)
      initial_heading distance heading_deviation decimal_places

/-- A concrete solver model: `Direct` stays at the start point and
`InverseS12` is identically zero.  It satisfies the solver identities used as
hypotheses below and serves to instantiate them in witnesses. -/
def trivialGeo : GeodesicModel where
  Direct := fun lat lon _ _ => ⟨lat, lon⟩
  InverseS12 := fun _ _ _ _ => 0

/-! ### Basic facts about the rounding model -/

theorem roundHalfToEven_intCast (n : ℤ) : roundHalfToEven (n : ℝ) = n := by
  have hc : ((n : ℝ) - (⌊(n : ℝ)⌋ : ℝ)) < 1 / 2 := by
    rw [Int.floor_intCast]; norm_num
  rw [roundHalfToEven, if_pos hc, Int.floor_intCast]

theorem roundHalfToEven_nonneg (x : ℝ) (hx : 0 ≤ x) : 0 ≤ roundHalfToEven x := by
  have hf : 0 ≤ ⌊x⌋ := Int.floor_nonneg.mpr hx
  rw [roundHalfToEven]
  split_ifs <;> omega

theorem pyRound_zero (d : ℤ) : pyRound 0 d = 0 := by
  have h0 : ((0 : ℝ) * 10 ^ d) = ((0 : ℤ) : ℝ) := by norm_num
  rw [pyRound, h0, roundHalfToEven_intCast]
  norm_num

theorem pyRound_nonneg (x : ℝ) (d : ℤ) (hx : 0 ≤ x) : 0 ≤ pyRound x d := by
  have h10 : (0 : ℝ) < 10 ^ d := by positivity
  have hm : (0 : ℝ) ≤ x * 10 ^ d := by positivity
  have := roundHalfToEven_nonneg (x * 10 ^ d) hm
  rw [pyRound]
  have : (0 : ℝ) ≤ ((roundHalfToEven (x * 10 ^ d) : ℤ) : ℝ) := by exact_mod_cast this
  positivity

/-! ### C6: rounding is idempotent -/

/-- C6: the rounding applied to the three scalar outputs is idempotent —
for every real value `x` and every precision `d`, rounding the already
rounded value `pyRound x d` again at the same `d` returns it unchanged. -/
theorem pyRound_idempotent (x : ℝ) (d : ℤ) :
    pyRound (pyRound x d) d = pyRound x d := by
  have h10 : ((10 : ℝ) ^ d) ≠ 0 := zpow_ne_zero d (by norm_num)
  have key : pyRound x d * 10 ^ d = ((roundHalfToEven (x * 10 ^ d) : ℤ) : ℝ) := by
    rw [pyRound, div_mul_cancel₀ _ h10]
  rw [pyRound, key, roundHalfToEven_intCast]
  rw [pyRound]

/-! ### Unfolding lemmas for the result fields -/

theorem computeDeviation_deviation_distance (geo : GeodesicModel)
    (la lo h d hdv : ℝ) (dp : ℤ) :
    (computeDeviation geo la lo h d hdv dp).deviation_distance =
      pyRound (geoDeviationPre geo la lo h d hdv) dp := rfl

theorem computeDeviation_trig (geo : GeodesicModel) (la lo h d hdv : ℝ) (dp : ℤ) :
    (computeDeviation geo la lo h d hdv dp).trig_deviation_distance =
      pyRound (trigDeviationPre d hdv) dp := rfl

theorem computeDeviation_difference (geo : GeodesicModel)
    (la lo h d hdv : ℝ) (dp : ℤ) :
    (computeDeviation geo la lo h d hdv dp).deviation_difference =
      pyRound |geoDeviationPre geo la lo h d hdv - trigDeviationPre d hdv| dp := rfl

theorem trigDeviationPre_zero (d : ℝ) : trigDeviationPre d 0 = 0 := by
  simp [trigDeviationPre, radians, Real.tan_zero]

/-! ### C3: zero heading deviation gives zero by both methods -/

/-- C3: for every origin, heading and distance, when `heading_deviation = 0`
both Direct calls are made with the same azimuth, so (for any solver whose
inverse distance between a point and itself is `0`, as holds for
`geographiclib`) the geodesic deviation is `0`, and the trigonometric
deviation `|distance * tan 0|` is `0` — both exactly, hence also after
rounding. -/
theorem zero_heading_deviation_zero (geo : GeodesicModel)
    (h0 : ∀ a b : ℝ, geo.InverseS12 a b a b = 0)
    (la lo h d : ℝ) (dp : ℤ) :
    (computeDeviation geo la lo h d 0 dp).deviation_distance = 0 ∧
      (computeDeviation geo la lo h d 0 dp).trig_deviation_distance = 0 := by
  have hg : geoDeviationPre geo la lo h d 0 = 0 := by
    simp only [geoDeviationPre, add_zero, h0, zero_div]
  constructor
  · rw [computeDeviation_deviation_distance, hg, pyRound_zero]
  · rw [computeDeviation_trig, trigDeviationPre_zero, pyRound_zero]

/-- Witness for C3 at the Earhart defaults. -/
theorem zero_heading_deviation_zero_witness :
    (computeDeviation trivialGeo (-6.728) 146.994 78 2556 0 2).deviation_distance = 0 ∧
      (computeDeviation trivialGeo (-6.728) 146.994 78 2556 0 2).trig_deviation_distance = 0 :=
  zero_heading_deviation_zero trivialGeo (fun _ _ => rfl) (-6.728) 146.994 78 2556 2

/-! ### C4: zero distance gives zero by both methods -/

/-- C4: for every origin, heading and heading deviation (including values at
or near ±90°), when `distance = 0` both Direct calls travel `0` meters, so
(for any solver for which travelling `0` returns the start point and the
inverse distance of a point to itself is `0`, as holds for `geographiclib`)
the geodesic deviation is `0`, and the trigonometric deviation
`|0 * tan(...)|` is `0` — both exactly, hence also after rounding. -/
theorem zero_distance_zero (geo : GeodesicModel)
    (hD : ∀ lat lon az : ℝ, geo.Direct lat lon az 0 = ⟨lat, lon⟩)
    (h0 : ∀ a b : ℝ, geo.InverseS12 a b a b = 0)
    (la lo h hdv : ℝ) (dp : ℤ) :
    (computeDeviation geo la lo h 0 hdv dp).deviation_distance = 0 ∧
      (computeDeviation geo la lo h 0 hdv dp).trig_deviation_distance = 0 := by
  have hg : geoDeviationPre geo la lo h 0 hdv = 0 := by
    simp only [geoDeviationPre, zero_mul, hD, h0, zero_div]
  have ht : trigDeviationPre 0 hdv = 0 := by
    simp [trigDeviationPre]
  constructor
  · rw [computeDeviation_deviation_distance, hg, pyRound_zero]
  · rw [computeDeviation_trig, ht, pyRound_zero]

/-- Witness for C4 at the tangent singularity `heading_deviation = 90`. -/
theorem zero_distance_zero_witness :
    (computeDeviation trivialGeo (-6.728) 146.994 78 0 90 2).deviation_distance = 0 ∧
      (computeDeviation trivialGeo (-6.728) 146.994 78 0 90 2).trig_deviation_distance = 0 :=
  zero_distance_zero trivialGeo (fun _ _ _ => rfl) (fun _ _ => rfl) (-6.728) 146.994 78 90 2

/-! ### C5: symmetry in the sign of the heading deviation -/

/-- C5: negating `heading_deviation` leaves both deviation outputs
unchanged.  For the trigonometric method this is `tan(-x) = -tan x` under the
absolute value; for the geodesic method it holds exactly when the solver's
deviation distance is invariant under reflecting the deviated azimuth about
the initial azimuth (the spec's proviso that the direct solver treats the
azimuth linearly), stated here as the hypothesis `hsym`. -/
theorem heading_deviation_sign_symmetry (geo : GeodesicModel)
    (hsym : ∀ lat lon hh δ s : ℝ,
      geo.InverseS12 (geo.Direct lat lon (hh + δ) s).lat2
          (geo.Direct lat lon (hh + δ) s).lon2
          (geo.Direct lat lon hh s).lat2 (geo.Direct lat lon hh s).lon2 =
        geo.InverseS12 (geo.Direct lat lon (hh - δ) s).lat2
          (geo.Direct lat lon (hh - δ) s).lon2
          (geo.Direct lat lon hh s).lat2 (geo.Direct lat lon hh s).lon2)
    (la lo h d hdv : ℝ) (dp : ℤ) :
    (computeDeviation geo la lo h d hdv dp).deviation_distance =
        (computeDeviation geo la lo h d (-hdv) dp).deviation_distance ∧
      (computeDeviation geo la lo h d hdv dp).trig_deviation_distance =
        (computeDeviation geo la lo h d (-hdv) dp).trig_deviation_distance := by
  have hg : geoDeviationPre geo la lo h d hdv = geoDeviationPre geo la lo h d (-hdv) := by
    simp only [geoDeviationPre]
    rw [show h + -hdv = h - hdv by ring]
    rw [hsym la lo h hdv (d * METERS_TO_MILES)]
  have ht : trigDeviationPre d hdv = trigDeviationPre d (-hdv) := by
    simp only [trigDeviationPre, radians]
    rw [show -hdv * Real.pi / 180 = -(hdv * Real.pi / 180) by ring, Real.tan_neg,
      mul_neg, abs_neg]
  constructor
  · rw [computeDeviation_deviation_distance, computeDeviation_deviation_distance, hg]
  · rw [computeDeviation_trig, computeDeviation_trig, ht]

/-- Witness for C5 at the Earhart defaults, `heading_deviation = 1`. -/
theorem heading_deviation_sign_symmetry_witness :
    (computeDeviation trivialGeo (-6.728) 146.994 78 2556 1 2).deviation_distance =
        (computeDeviation trivialGeo (-6.728) 146.994 78 2556 (-1) 2).deviation_distance ∧
      (computeDeviation trivialGeo (-6.728) 146.994 78 2556 1 2).trig_deviation_distance =
        (computeDeviation trivialGeo (-6.728) 146.994 78 2556 (-1) 2).trig_deviation_distance :=
  heading_deviation_sign_symmetry trivialGeo (fun _ _ _ _ _ => rfl) (-6.728) 146.994 78 2556 1 2

/-! ### C9: determinism and statelessness -/

/-- C9: `calculate_deviation` is deterministic — two invocations with equal
arguments return equal results.  The function is embedded as a pure function
because the source reads nothing but its arguments, the immutable module
constant `METERS_TO_MILES` and the immutable solver object `Geodesic.WGS84`
(here the `geo` parameter), and writes no external state. -/
theorem calculate_deviation_deterministic (geo : GeodesicModel)
    (s₁ s₂ : String) (h₁ h₂ d₁ d₂ hv₁ hv₂ : ℝ) (p₁ p₂ : ℤ)
    (es : s₁ = s₂) (eh : h₁ = h₂) (ed : d₁ = d₂) (ev : hv₁ = hv₂) (ep : p₁ = p₂) :
    calculate_deviation geo s₁ h₁ d₁ hv₁ p₁ = calculate_deviation geo s₂ h₂ d₂ hv₂ p₂ := by
  rw [es, eh, ed, ev, ep]

/-- Witness for C9 at the Earhart defaults. -/
theorem calculate_deviation_deterministic_witness :
    calculate_deviation trivialGeo "-6.728, 146.994" 78 2556 1 2 =
      calculate_deviation trivialGeo "-6.728, 146.994" 78 2556 1 2 :=
  calculate_deviation_deterministic trivialGeo _ _ _ _ _ _ _ _ _ _ rfl rfl rfl rfl rfl

/-! ### C10: no range validation of the parsed coordinates -/

/-- On any successfully parsed coordinate string, `calculate_deviation`
computes `computeDeviation` of the two parsed values. -/
theorem calculate_deviation_eq_some (geo : GeodesicModel) (s : String)
    (h d hdv : ℝ) (dp : ℤ) (pla plo : PyFloat)
    (hp : parseCoords s = some (pla, plo)) :
    calculate_deviation geo s h d hdv dp =
      some (computeDeviation geo (floatValR pla) (floatValR plo) h d hdv dp) := by
  unfold calculate_deviation
  rw [hp]
  rfl

/-- C10: `calculate_deviation` performs no range check on the parsed
coordinates: whenever the coordinate string parses to values `pla`, `plo`
(however far outside `[-90, 90] × [-180, 180]`), the result is `some` and is
computed by passing those values unchanged as the first two arguments of the
solver calls inside `computeDeviation`. -/
theorem no_range_validation (geo : GeodesicModel) (s : String)
    (h d hdv : ℝ) (dp : ℤ) (pla plo : PyFloat)
    (hp : parseCoords s = some (pla, plo)) :
    calculate_deviation geo s h d hdv dp =
      some (computeDeviation geo (floatValR pla) (floatValR plo) h d hdv dp) :=
  calculate_deviation_eq_some geo s h d hdv dp pla plo hp

/-- Witness for C10 on a coordinate string with latitude `1000` and longitude
`2000`, far outside the valid ranges. -/
theorem no_range_validation_witness :
    calculate_deviation trivialGeo "1000,2000" 0 0 0 1 =
      some (computeDeviation trivialGeo (floatValR (.finite 1000 0))
        (floatValR (.finite 2000 0)) 0 0 0 1) :=
  no_range_validation trivialGeo "1000,2000" 0 0 0 1
    (.finite 1000 0) (.finite 2000 0) (by decide)

/-! ### C8: the coordinate parse gates the whole computation -/

/-- C8: if the coordinate string does not split on commas into exactly two
fields that each parse as a float literal, `calculate_deviation` fails with
the parse error before any geodesic or trigonometric computation (for every
solver, the result is `none`); and whenever it does so split, the two parsed
values are used as the starting latitude and longitude of the computation. -/
theorem coordinate_parse_gate (geo : GeodesicModel) (s : String)
    (h d hdv : ℝ) (dp : ℤ) :
    ((¬ ∃ a b pa pb, splitOnChar ',' s.toList = [a, b] ∧
        pyFloatNum a = some pa ∧ pyFloatNum b = some pb) →
      calculate_deviation geo s h d hdv dp = none) ∧
    (∀ a b pa pb, splitOnChar ',' s.toList = [a, b] →
      pyFloatNum a = some pa → pyFloatNum b = some pb →
      calculate_deviation geo s h d hdv dp =
        some (computeDeviation geo (floatValR pa) (floatValR pb) h d hdv dp)) := by
  constructor
  · intro hne
    unfold calculate_deviation parseCoords
    rcases hl : splitOnChar ',' s.toList with _ | ⟨a, _ | ⟨b, _ | ⟨c, t⟩⟩⟩
    · rfl
    · rfl
    · rcases hpa : pyFloatNum a with _ | pa
      · simp [hpa]
      · rcases hpb : pyFloatNum b with _ | pb
        · simp [hpa, hpb]
        · exact absurd ⟨a, b, pa, pb, hl, hpa, hpb⟩ hne
    · rfl
  · intro a b pa pb hl hpa hpb
    unfold calculate_deviation parseCoords
    rw [hl]
    simp only [hpa, hpb]
    rfl

/-- Witness for C8 on the default Earhart coordinate string (whose second
field carries a leading space that `float` strips). -/
theorem coordinate_parse_gate_witness :
    calculate_deviation trivialGeo "-6.728, 146.994" 78 2556 1 2 =
      some (computeDeviation trivialGeo (floatValR (.finite (-6728) (-3)))
        (floatValR (.finite 146994 (-3))) 78 2556 1 2) :=
  (coordinate_parse_gate trivialGeo "-6.728, 146.994" 78 2556 1 2).2
    ("-6.728".toList) (" 146.994".toList) (.finite (-6728) (-3)) (.finite 146994 (-3))
    (by decide) (by decide) (by decide)

/-! ### C1: the tangent singularity raises no error -/

/-- C1 (divergence): at `heading_deviation = 90` with the default inputs
the function surfaces no error of any kind — the coordinate parse is the
only failure path of `calculate_deviation`, so the result is `some` and is
the ordinary result record.  (In the source, `math.tan(math.radians(90))`
raises nothing and returns the large finite float `1.633e16`;
no exception, sentinel, or clamp distinguishes this input.) -/
theorem tan_singularity_unhandled :
    (calculate_deviation trivialGeo "-6.728, 146.994" 78 2556 90 2).isSome = true := by
  have hp : parseCoords "-6.728, 146.994" =
      some (.finite (-6728) (-3), .finite 146994 (-3)) := by decide
  unfold calculate_deviation
  rw [hp]
  rfl

/-! ### The absolute difference and the rounding order -/

/-- The difference output is always nonnegative, and it is computed by
rounding the absolute difference of the two PRE-rounding deviations (line 63
of `main.py` runs before the rounding on lines 66-68).  Whether it also
coincides with the absolute difference of the two rounded outputs at a given
input depends on the exact values the WGS84 solver returns there, which are
outside this embedding. -/
theorem difference_is_rounded_preround_difference (geo : GeodesicModel)
    (la lo h d hdv : ℝ) (dp : ℤ) :
    0 ≤ (computeDeviation geo la lo h d hdv dp).deviation_difference ∧
      (computeDeviation geo la lo h d hdv dp).deviation_difference =
        pyRound |geoDeviationPre geo la lo h d hdv - trigDeviationPre d hdv| dp := by
  refine ⟨?_, computeDeviation_difference geo la lo h d hdv dp⟩
  rw [computeDeviation_difference]
  exact pyRound_nonneg _ _ (abs_nonneg _)

/-! ### C7: the trigonometric method formula and the Earhart default -/

/-- C7: the trigonometric deviation output is (the documented rounding of)
`|distance * tan(heading_deviation in radians)|` for every input, and at the
Earhart default `heading_deviation = 1°`, `distance = 2556` miles, the value
`2556 * tan(1°)` is within `0.1` of `44.6` miles. -/
theorem trig_formula_and_earhart_default :
    (∀ (geo : GeodesicModel) (la lo h d hdv : ℝ) (dp : ℤ),
        (computeDeviation geo la lo h d hdv dp).trig_deviation_distance =
          pyRound |d * Real.tan (radians hdv)| dp) ∧
      |2556 * Real.tan (radians 1) - 223 / 5| < 1 / 10 := by
  constructor
  · intro geo la lo h d hdv dp
    rfl
  · have hrad : radians 1 = Real.pi / 180 := by rw [radians]; ring
    rw [hrad]
    set x := Real.pi / 180 with hx
    have hπl := Real.pi_gt_d6
    have hπu := Real.pi_lt_d6
    have hx1 : (0.017453 : ℝ) < x := by rw [hx]; linarith
    have hx2 : x < 0.017454 := by rw [hx]; linarith
    have hx0 : 0 < x := by linarith
    have hxsq : x ^ 2 < 0.00030468 := by nlinarith
    have hxhalfpi : x < Real.pi / 2 := by rw [hx]; linarith
    have htan_lb : (0.017453 : ℝ) < Real.tan x := lt_trans hx1 (Real.lt_tan hx0 hxhalfpi)
    have hsinlt : Real.sin x < x := Real.sin_lt hx0
    have hcos_lb : (0.9998 : ℝ) < Real.cos x := by
      have hcb := Real.one_sub_sq_div_two_le_cos (x := x)
      nlinarith
    have hcos_pos : 0 < Real.cos x := by linarith
    have htan_ub : Real.tan x < 0.01746 := by
      rw [Real.tan_eq_sin_div_cos, div_lt_iff₀ hcos_pos]
      nlinarith
    rw [abs_lt]
    constructor <;> nlinarith

end Deviation
